import Mathlib

/-!
Shallow embedding of the disgord user-entity module (`struct_user.go`) and of
the `httd` standard-JSON dispatch (`json_std.go`), together with theorems
settling the specification claims about them.

Go pointers to strings (`Avatar *string`) are modelled with an explicit heap of
string cells; Go's `interface` copy targets are modelled by a sum type carrying
either a `User` or a value of an arbitrary other type; the lock behaviour of
`CopyOverTo` is modelled separately as the sequence of lock operations it
performs, interpreted by a small transition system over reader/writer locks.
-/

namespace Disgord

/-- Modelled from the spec: the `Snowflake` type is declared outside this
module (only its uses appear in `struct_user.go`); the spec describes it as a
64-bit unique identifier where `0` denotes absence.  We model it as a natural
number. -/
abbrev Snowflake := Nat

/-- Modelled from the spec: `Snowflake.Empty` (called by `User.MarshalJSON`)
holds exactly when the identifier is `0`, the "not yet assigned / empty"
value of the spec. -/
def Snowflake.Empty (s : Snowflake) : Bool := s == 0

/-- A heap of allocated string cells, modelling Go pointers to strings:
`cells` maps a location to its contents and `next` is the next fresh location,
so every location allocated so far is `< next`. -/
structure Heap where
  cells : Nat → String
  next : Nat

/-- Allocate a fresh string cell holding `s`; returns the new heap and the
fresh location. -/
def Heap.alloc (h : Heap) (s : String) : Heap × Nat :=
  (⟨Function.update h.cells h.next s, h.next + 1⟩, h.next)

/-- `type User struct` of `struct_user.go`.  `Avatar *string` becomes an
optional heap location; the embedded `sync.RWMutex` (tagged `json:"-"`) carries
no data and is modelled separately for the lock-order analysis. -/
structure User where
  ID : Snowflake
  Username : String
  Discriminator : String
  Email : String
  Avatar : Option Nat
  Token : String
  Verified : Bool
  MFAEnabled : Bool
  Bot : Bool
deriving DecidableEq, Repr

/-- `func NewUser() *User` — the zero-value constructor. -/
def NewUser : User :=
  { ID := 0, Username := "", Discriminator := "", Email := "", Avatar := none,
    Token := "", Verified := false, MFAEnabled := false, Bot := false }

/-- JSON values, for the wire form produced by marshalling. -/
inductive Json where
  | str (s : String)
  | num (n : Nat)
  | bool (b : Bool)
  | null
  | obj (fields : List (String × Json))

/-- The keys of a JSON object (empty for non-objects). -/
def Json.keys : Json → List String
  | .obj fields => fields.map Prod.fst
  | _ => []

/-- `encoding/json` marshalling of the plain `User` value (the
`json.Marshal(User(*u))` branch of `MarshalJSON`): fields appear in declaration
order; a field tagged `omitempty` is dropped when it holds its zero value
(`0`, `""`, `false`); `Avatar` has no `omitempty` tag, so a `nil` pointer is
emitted as JSON `null` and a non-nil pointer as the pointed-to string. -/
def marshalUserValue (u : User) (h : Heap) : Json :=
  .obj ((if u.ID = 0 then [] else [("id", Json.num u.ID)]) ++
    (if u.Username = "" then [] else [("username", Json.str u.Username)]) ++
    (if u.Discriminator = "" then []
      else [("discriminator", Json.str u.Discriminator)]) ++
    (if u.Email = "" then [] else [("email", Json.str u.Email)]) ++
    [("avatar", match u.Avatar with
      | none => Json.null
      | some l => Json.str (h.cells l))] ++
    (if u.Token = "" then [] else [("token", Json.str u.Token)]) ++
    (if u.Verified = false then [] else [("verified", Json.bool u.Verified)]) ++
    (if u.MFAEnabled = false then []
      else [("mfa_enabled", Json.bool u.MFAEnabled)]) ++
    (if u.Bot = false then [] else [("bot", Json.bool u.Bot)]))

/-- `func (u *User) MarshalJSON() ([]byte, error)`: when `u.ID.Empty()` it
returns the empty-object bytes with a `nil` error, otherwise the marshalled
full value (which cannot fail on this field set, hence error `none`). -/
def User.MarshalJSON (u : User) (h : Heap) : Json × Option String :=
  if Snowflake.Empty u.ID then (Json.obj [], none)
  else (marshalUserValue u h, none)

/-- `func (u *User) Clear()` — its body is entirely commented out. -/
def User.Clear (u : User) : User := u

/-- The errors `struct_user.go` can produce. `NewErrorUnsupportedType` is
declared elsewhere in the repository; we keep its message. -/
inductive DisgordError where
  | unsupportedType (msg : String)
  | notImplemented (msg : String)
deriving DecidableEq, Repr

/-- A Go `interface` value passed as the target of `CopyOverTo`: either a
`*User`, or a value of some arbitrary other type `α` (for which the
`other.(*User)` type assertion fails). -/
inductive CopyTarget (α : Type) where
  | userTarget (t : User)
  | otherTarget (v : α)
deriving DecidableEq

/-- The field-transfer body of `CopyOverTo` once the target is known to be a
`*User` (lines between `user.ID = u.ID` and the avatar copy): all scalar
fields are assigned from the source; `Avatar` is reassigned only when the
source's avatar pointer is non-nil, in which case a fresh string cell is
allocated (`avatar := *u.Avatar; user.Avatar = &avatar`). -/
def copyUserFields (u : User) (target : User) (h : Heap) : User × Heap :=
  let t := { target with
    ID := u.ID, Username := u.Username, Discriminator := u.Discriminator,
    Email := u.Email, Token := u.Token, Verified := u.Verified,
    MFAEnabled := u.MFAEnabled, Bot := u.Bot }
  match u.Avatar with
  | none => (t, h)
  | some l =>
      let (h2, l2) := h.alloc (h.cells l)
      ({ t with Avatar := some l2 }, h2)

/-- `func (u *User) CopyOverTo(other interface) (err error)`: a failed type
assertion returns the `UnsupportedType` error and touches nothing; otherwise
the fields are transferred and the error is `nil`. -/
def User.CopyOverTo (u : User) (other : CopyTarget α) (h : Heap) :
    CopyTarget α × Heap × Option DisgordError :=
  match other with
  | .otherTarget v =>
      (.otherTarget v, h,
        some (.unsupportedType "argument given is not a *User type"))
  | .userTarget t =>
      let (t2, h2) := copyUserFields u t h
      (.userTarget t2, h2, none)

/-- `func (u *User) DeepCopy() (copy interface)`: allocates `NewUser()`,
copies into it with `CopyOverTo` (whose error is discarded), and returns it. -/
def User.DeepCopy (u : User) (h : Heap) : CopyTarget α × Heap :=
  let (c, h2, _) := u.CopyOverTo (.userTarget NewUser) h
  (c, h2)

/-- Calls `SaveToDiscord` could make on the injected session collaborator
(none are made). -/
inductive SessionCall where
  | createDM (recipientID : Snowflake)
  | sendMsg (channelID : Snowflake) (content : String)
deriving DecidableEq, Repr

/-- `func (u *User) SaveToDiscord(session Session) (err error)`: the body is
`return errors.New("not implemented")` — no session call is issued and the
receiver is untouched.  The result records the (unchanged) user, the (empty)
list of session calls, and the error. -/
def User.SaveToDiscord {Session : Type} (u : User) (_session : Session) :
    User × List SessionCall × Option String :=
  (u, [], some "not implemented")

/-- `type ActivityParty struct` — `Size []int`. -/
structure ActivityParty where
  ID : String
  Size : List Int
deriving DecidableEq, Repr

/-- `func (ap *ActivityParty) Limit() int`: `0` unless the size list has
length exactly `2`, in which case `Size[1]`. -/
def ActivityParty.Limit (ap : ActivityParty) : Int :=
  if h : ap.Size.length = 2 then ap.Size.get ⟨1, by omega⟩ else 0

/-- `func (ap *ActivityParty) NumberOfPeople() int`: `0` unless the size list
has length exactly `1`, in which case `Size[0]`. -/
def ActivityParty.NumberOfPeople (ap : ActivityParty) : Int :=
  if h : ap.Size.length = 1 then ap.Size.get ⟨0, by omega⟩ else 0

/-! ### Lock model for the copy protocol

`CopyOverTo` performs, in program order, `u.RLock()`, `user.Lock()`, the field
transfer, `u.RUnlock()`, `user.Unlock()`.  We record this synchronization
skeleton as a sequence of lock operations and interpret it with the standard
semantics of a reader/writer lock: a read acquire blocks while a writer holds
the lock, a write acquire blocks while any reader or writer holds it.  (Go's
`sync.RWMutex` additionally blocks new readers once a writer is waiting; our
semantics is more permissive, so any deadlock reachable here is reachable in
Go as well.) -/

/-- The state of one reader/writer lock: the number of readers holding it and
whether a writer holds it. -/
structure RWMutex where
  readers : Nat
  writer : Bool
deriving DecidableEq, Repr

/-- The four lock operations appearing in `CopyOverTo`. -/
inductive LockOp where
  | rlock | runlock | wlock | wunlock
deriving DecidableEq, Repr

/-- Apply a lock operation to a lock, or `none` when it blocks. -/
def RWMutex.applyOp (m : RWMutex) : LockOp → Option RWMutex
  | .rlock => if m.writer then none else some ⟨m.readers + 1, m.writer⟩
  | .runlock =>
      match m.readers with
      | 0 => none
      | r + 1 => some ⟨r, m.writer⟩
  | .wlock =>
      if m.readers = 0 ∧ m.writer = false then some ⟨0, true⟩ else none
  | .wunlock => if m.writer then some ⟨m.readers, false⟩ else none

/-- The two `User` entities of a bidirectional-copy scenario. -/
inductive LockId where
  | a | b
deriving DecidableEq, Repr

/-- The sequence of lock operations `CopyOverTo` performs, in program order,
when copying from the entity `src` into the entity `tgt`:
`src.RLock(); tgt.Lock(); ...; src.RUnlock(); tgt.Unlock()`. -/
def copyLockTrace (src tgt : LockId) : List (LockId × LockOp) :=
  [(src, .rlock), (tgt, .wlock), (src, .runlock), (tgt, .wunlock)]

/-- Two threads, each still to execute a list of lock operations, plus the
state of the two locks. -/
structure SysState where
  lockA : RWMutex
  lockB : RWMutex
  thread1 : List (LockId × LockOp)
  thread2 : List (LockId × LockOp)
deriving DecidableEq, Repr

/-- The lock named by `i`. -/
def SysState.lock (s : SysState) : LockId → RWMutex
  | .a => s.lockA
  | .b => s.lockB

/-- Replace the lock named by `i`. -/
def SysState.setLock (s : SysState) : LockId → RWMutex → SysState
  | .a, m => { s with lockA := m }
  | .b, m => { s with lockB := m }

/-- The states reachable from `s` in one step: either thread executes its next
lock operation, provided that operation does not block. -/
def SysState.succs (s : SysState) : List SysState :=
  (match s.thread1 with
   | [] => []
   | (i, op) :: rest =>
      match (s.lock i).applyOp op with
      | none => []
      | some m => [{ s.setLock i m with thread1 := rest, thread2 := s.thread2 }]) ++
  (match s.thread2 with
   | [] => []
   | (i, op) :: rest =>
      match (s.lock i).applyOp op with
      | none => []
      | some m => [{ s.setLock i m with thread2 := rest, thread1 := s.thread1 }])

/-- Reachability in zero or more interleaved steps. -/
def SysState.Reaches (s t : SysState) : Prop :=
  Relation.ReflTransGen (fun x y => y ∈ x.succs) s t

/-- A state is deadlocked when both threads still have operations to perform
but no step is enabled. -/
def SysState.Deadlocked (s : SysState) : Prop :=
  s.thread1 ≠ [] ∧ s.thread2 ≠ [] ∧ s.succs = []

instance (s : SysState) : Decidable s.Deadlocked := by
  unfold SysState.Deadlocked; infer_instance

/-- The initial state of the bidirectional-copy scenario: both locks free,
thread 1 runs `a.CopyOverTo(b)` and thread 2 runs `b.CopyOverTo(a)`. -/
def bidirInit : SysState :=
  { lockA := ⟨0, false⟩, lockB := ⟨0, false⟩,
    thread1 := copyLockTrace .a .b, thread2 := copyLockTrace .b .a }

/-! ### Helper lemmas about the copy body -/

/-- When the source's avatar pointer is nil, `copyUserFields` assigns exactly
the scalar fields and leaves the target's avatar and the heap untouched. -/
theorem copyUserFields_of_avatar_none (u t : User) (h : Heap)
    (hav : u.Avatar = none) :
    copyUserFields u t h =
      ({ t with
          ID := u.ID, Username := u.Username,
          Discriminator := u.Discriminator, Email := u.Email,
          Token := u.Token, Verified := u.Verified,
          MFAEnabled := u.MFAEnabled, Bot := u.Bot }, h) := by
  unfold copyUserFields
  rw [hav]

/-- When the source's avatar pointer is `some l`, `copyUserFields` assigns the
scalar fields and points the target's avatar at a freshly allocated cell
holding the source avatar's string. -/
theorem copyUserFields_of_avatar_some (u t : User) (h : Heap) (l : Nat)
    (hav : u.Avatar = some l) :
    copyUserFields u t h =
      ({ t with
          ID := u.ID, Username := u.Username,
          Discriminator := u.Discriminator, Email := u.Email,
          Token := u.Token, Verified := u.Verified,
          MFAEnabled := u.MFAEnabled, Bot := u.Bot, Avatar := some h.next },
        ⟨Function.update h.cells h.next (h.cells l), h.next + 1⟩) := by
  unfold copyUserFields
  rw [hav]
  rfl

/-- `CopyOverTo` into a `*User` target is the field transfer plus a `nil`
error. -/
theorem copyOverTo_user_eq {α : Type} (u t : User) (h : Heap) :
    u.CopyOverTo (α := α) (.userTarget t) h =
      (.userTarget (copyUserFields u t h).1, (copyUserFields u t h).2,
        none) := rfl

/-- `DeepCopy` is the field transfer into `NewUser`. -/
theorem deepCopy_eq {α : Type} (u : User) (h : Heap) :
    u.DeepCopy (α := α) h =
      (.userTarget (copyUserFields u NewUser h).1,
        (copyUserFields u NewUser h).2) := rfl

/-- A concrete user with every field populated and its avatar pointing at the
single allocated cell of `sampleHeap`. -/
def sampleUser : User :=
  { ID := 7, Username := "Ann", Discriminator := "0001",
    Email := "ann@example.com", Avatar := some 0, Token := "tok",
    Verified := true, MFAEnabled := false, Bot := true }

/-- A one-cell heap backing `sampleUser`'s avatar pointer. -/
def sampleHeap : Heap := ⟨fun _ => "avatarhash", 1⟩

/-- A concrete copy target with unrelated prior contents. -/
def sampleTarget : User :=
  { ID := 9, Username := "Bob", Discriminator := "0002",
    Email := "bob@example.com", Avatar := none, Token := "tk2",
    Verified := false, MFAEnabled := true, Bot := false }

/-! ### The claims -/

/-- Claim C1: for every `User` whose identifier is empty (`0`), `MarshalJSON`
returns the empty-object wire form with no error, regardless of how the other
fields are populated. -/
theorem marshalJSON_of_empty_id (u : User) (h : Heap) (hid : u.ID = 0) :
    u.MarshalJSON h = (Json.obj [], none) := by
  simp [User.MarshalJSON, Snowflake.Empty, hid]

/-- Witness for C1 at a user with every other field populated. -/
theorem marshalJSON_of_empty_id_witness :
    User.MarshalJSON
        { ID := 0, Username := "Ann", Discriminator := "0001",
          Email := "ann@example.com", Avatar := some 0, Token := "tok",
          Verified := true, MFAEnabled := true, Bot := true }
        ⟨fun _ => "avatarhash", 1⟩ = (Json.obj [], none) :=
  marshalJSON_of_empty_id _ _ rfl

/-- Claim C4: `CopyOverTo` into any non-`*User` target returns the
`UnsupportedType` error with the target and heap untouched, and the `*User`
branch — the only other branch — always returns a `nil` error, so the type
mismatch is the only failure condition. -/
theorem copyOverTo_type_mismatch {α : Type} (u : User) (h : Heap) :
    (∀ v : α, u.CopyOverTo (.otherTarget v) h =
      (.otherTarget v, h,
        some (.unsupportedType "argument given is not a *User type"))) ∧
    (∀ t : User, (u.CopyOverTo (α := α) (.userTarget t) h).2.2 = none) := by
  refine ⟨fun v => rfl, fun t => rfl⟩

/-- Claim C7: `Limit` returns `Size[1]` exactly when the size list has length
`2` and `0` otherwise; `NumberOfPeople` returns `Size[0]` exactly when the
size list has length `1` and `0` otherwise; neither fails. -/
theorem party_limit_and_numberOfPeople (ap : ActivityParty) :
    (ap.Size.length = 2 → ap.Limit = ap.Size.getD 1 0) ∧
    (ap.Size.length ≠ 2 → ap.Limit = 0) ∧
    (ap.Size.length = 1 → ap.NumberOfPeople = ap.Size.getD 0 0) ∧
    (ap.Size.length ≠ 1 → ap.NumberOfPeople = 0) := by
  refine ⟨fun h2 => ?_, fun h2 => ?_, fun h1 => ?_, fun h1 => ?_⟩
  · rw [ActivityParty.Limit, dif_pos h2, List.getD_eq_getElem _ _ (by omega)]
    simp
  · rw [ActivityParty.Limit, dif_neg h2]
  · rw [ActivityParty.NumberOfPeople, dif_pos h1,
      List.getD_eq_getElem _ _ (by omega)]
    simp
  · rw [ActivityParty.NumberOfPeople, dif_neg h1]

/-- Witness for C7 at concrete parties of lengths 2, 3, 1 and 0. -/
theorem party_limit_and_numberOfPeople_witness :
    (ActivityParty.mk "p" [3, 5]).Limit = List.getD [3, 5] 1 0 ∧
    (ActivityParty.mk "p" [3, 5, 9]).Limit = 0 ∧
    (ActivityParty.mk "p" [7]).NumberOfPeople = List.getD [7] 0 0 ∧
    (ActivityParty.mk "p" []).NumberOfPeople = 0 :=
  ⟨(party_limit_and_numberOfPeople _).1 rfl,
   (party_limit_and_numberOfPeople (ActivityParty.mk "p" [3, 5, 9])).2.1
     (by decide),
   (party_limit_and_numberOfPeople _).2.2.1 rfl,
   (party_limit_and_numberOfPeople (ActivityParty.mk "p" [])).2.2.2
     (by decide)⟩

/-- Claim C9: `SaveToDiscord` unconditionally returns the fixed
"not implemented" error, issues no session call, and leaves the user
unchanged. -/
theorem saveToDiscord_not_implemented {Session : Type} (u : User)
    (session : Session) :
    u.SaveToDiscord session = (u, [], some "not implemented") := rfl

/-- Claim C10: `Clear` (whose body is commented out) is a no-op: every field,
including the tri-state avatar, is unchanged. -/
theorem clear_is_noop (u : User) :
    u.Clear = u ∧ (u.Clear).Avatar = u.Avatar := ⟨rfl, rfl⟩

/-- Claim C2: `DeepCopy` returns a freshly allocated `User` whose fields are
value-equal to the source's at copy time and which shares no mutable storage
with the source: when the source avatar is set, the copy's avatar is a
distinct cell (location differs) holding an equal string, the copy leaves all
previously allocated cells unchanged, and overwriting either avatar cell
leaves the other cell's contents unchanged. -/
theorem deepCopy_independent {α : Type} (u : User) (h : Heap)
    (hvalid : ∀ l, u.Avatar = some l → l < h.next) :
    ∃ (c : User) (h2 : Heap),
      u.DeepCopy (α := α) h = (.userTarget c, h2) ∧
      c.ID = u.ID ∧ c.Username = u.Username ∧
      c.Discriminator = u.Discriminator ∧ c.Email = u.Email ∧
      c.Token = u.Token ∧ c.Verified = u.Verified ∧
      c.MFAEnabled = u.MFAEnabled ∧ c.Bot = u.Bot ∧
      (∀ m, m < h.next → h2.cells m = h.cells m) ∧
      (u.Avatar = none → c.Avatar = none) ∧
      (∀ l, u.Avatar = some l → ∃ l2, c.Avatar = some l2 ∧ l2 ≠ l ∧
        h2.cells l2 = h.cells l ∧
        (∀ s, Function.update h2.cells l2 s l = h2.cells l) ∧
        (∀ s, Function.update h2.cells l s l2 = h2.cells l2)) := by
  cases hu : u.Avatar with
  | none =>
      refine ⟨{ u with Avatar := none }, h, ?_, rfl, rfl, rfl, rfl, rfl, rfl,
        rfl, rfl, fun m _ => rfl, fun _ => rfl, fun l hl => ?_⟩
      · rw [deepCopy_eq, copyUserFields_of_avatar_none u NewUser h hu]
        rfl
      · cases hl
  | some l0 =>
      have hl0 : l0 < h.next := hvalid l0 hu
      refine ⟨{ u with Avatar := some h.next },
        ⟨Function.update h.cells h.next (h.cells l0), h.next + 1⟩, ?_,
        rfl, rfl, rfl, rfl, rfl, rfl, rfl, rfl, ?_, ?_, ?_⟩
      · rw [deepCopy_eq, copyUserFields_of_avatar_some u NewUser h l0 hu]
      · intro m hm
        exact Function.update_noteq (Nat.ne_of_lt hm) _ _
      · intro hnone; cases hnone
      · intro l hl
        obtain rfl : l0 = l := Option.some.inj hl
        refine ⟨h.next, rfl, by omega, Function.update_same _ _ _, ?_, ?_⟩
        · intro s
          exact Function.update_noteq (Nat.ne_of_lt hl0) _ _
        · intro s
          exact Function.update_noteq (Ne.symm (Nat.ne_of_lt hl0)) _ _

/-- Witness for C2 at `sampleUser` over `sampleHeap`. -/
theorem deepCopy_independent_witness :
    (∀ l, sampleUser.Avatar = some l → l < sampleHeap.next) ∧
    ∃ (c : User) (h2 : Heap),
      sampleUser.DeepCopy (α := Unit) sampleHeap = (.userTarget c, h2) ∧
      c.ID = sampleUser.ID ∧ c.Username = sampleUser.Username ∧
      c.Discriminator = sampleUser.Discriminator ∧
      c.Email = sampleUser.Email ∧
      c.Token = sampleUser.Token ∧ c.Verified = sampleUser.Verified ∧
      c.MFAEnabled = sampleUser.MFAEnabled ∧ c.Bot = sampleUser.Bot ∧
      (∀ m, m < sampleHeap.next → h2.cells m = sampleHeap.cells m) ∧
      (sampleUser.Avatar = none → c.Avatar = none) ∧
      (∀ l, sampleUser.Avatar = some l → ∃ l2, c.Avatar = some l2 ∧ l2 ≠ l ∧
        h2.cells l2 = sampleHeap.cells l ∧
        (∀ s, Function.update h2.cells l2 s l = h2.cells l) ∧
        (∀ s, Function.update h2.cells l s l2 = h2.cells l2)) :=
  ⟨fun l hl => by simp [sampleUser] at hl; simp [sampleHeap, ← hl],
   deepCopy_independent sampleUser sampleHeap
     (fun l hl => by simp [sampleUser] at hl; simp [sampleHeap, ← hl])⟩

/-- Claim C3 counterexample: copying from a source whose avatar is unset into
a target whose avatar is set succeeds but leaves the target's avatar set —
the claim's "when u.Avatar is unset (nil), t.Avatar is unset after the copy"
fails at this input. -/
theorem copyOverTo_nil_avatar_counterexample :
    NewUser.Avatar = none ∧
    NewUser.CopyOverTo (α := Unit)
        (.userTarget (User.mk 0 "" "" "" (some 0) "" false false false))
        (Heap.mk (fun _ => "old") 1) =
      (.userTarget (User.mk 0 "" "" "" (some 0) "" false false false),
        Heap.mk (fun _ => "old") 1, none) ∧
    (User.mk 0 "" "" "" (some 0) "" false false false).Avatar ≠ none :=
  ⟨rfl, rfl, by simp⟩

/-- Claim C3 (amended): a successful `CopyOverTo` into a `*User` target
transfers every scalar field; when the source avatar is set it is copied into
a freshly allocated, distinct cell with an equal string; when the source
avatar is unset, the target's avatar retains its prior value (it is not
unset) and the heap is unchanged. -/
theorem copyOverTo_transfers {α : Type} (u t : User) (h : Heap)
    (hvalid : ∀ l, u.Avatar = some l → l < h.next) :
    ∃ (t2 : User) (h2 : Heap),
      u.CopyOverTo (α := α) (.userTarget t) h = (.userTarget t2, h2, none) ∧
      t2.ID = u.ID ∧ t2.Username = u.Username ∧
      t2.Discriminator = u.Discriminator ∧ t2.Email = u.Email ∧
      t2.Token = u.Token ∧ t2.Verified = u.Verified ∧
      t2.MFAEnabled = u.MFAEnabled ∧ t2.Bot = u.Bot ∧
      (u.Avatar = none → t2.Avatar = t.Avatar ∧ h2 = h) ∧
      (∀ l, u.Avatar = some l → ∃ l2, t2.Avatar = some l2 ∧ l2 ≠ l ∧
        h2.cells l2 = h.cells l ∧
        (∀ m, m < h.next → h2.cells m = h.cells m)) := by
  cases hu : u.Avatar with
  | none =>
      refine ⟨{ t with
          ID := u.ID, Username := u.Username,
          Discriminator := u.Discriminator, Email := u.Email,
          Token := u.Token, Verified := u.Verified,
          MFAEnabled := u.MFAEnabled, Bot := u.Bot }, h, ?_,
        rfl, rfl, rfl, rfl, rfl, rfl, rfl, rfl, fun _ => ⟨rfl, rfl⟩,
        fun l hl => ?_⟩
      · rw [copyOverTo_user_eq, copyUserFields_of_avatar_none u t h hu]
      · cases hl
  | some l0 =>
      have hl0 : l0 < h.next := hvalid l0 hu
      refine ⟨{ t with
          ID := u.ID, Username := u.Username,
          Discriminator := u.Discriminator, Email := u.Email,
          Token := u.Token, Verified := u.Verified,
          MFAEnabled := u.MFAEnabled, Bot := u.Bot,
          Avatar := some h.next },
        ⟨Function.update h.cells h.next (h.cells l0), h.next + 1⟩, ?_,
        rfl, rfl, rfl, rfl, rfl, rfl, rfl, rfl, ?_, ?_⟩
      · rw [copyOverTo_user_eq, copyUserFields_of_avatar_some u t h l0 hu]
      · intro hnone; cases hnone
      · intro l hl
        obtain rfl : l0 = l := Option.some.inj hl
        refine ⟨h.next, rfl, by omega, Function.update_same _ _ _, ?_⟩
        intro m hm
        exact Function.update_noteq (Nat.ne_of_lt hm) _ _

/-- Witness for the amended C3 at `sampleUser`, `sampleTarget` over
`sampleHeap`. -/
theorem copyOverTo_transfers_witness :
    (∀ l, sampleUser.Avatar = some l → l < sampleHeap.next) ∧
    ∃ (t2 : User) (h2 : Heap),
      sampleUser.CopyOverTo (α := Unit) (.userTarget sampleTarget)
          sampleHeap = (.userTarget t2, h2, none) ∧
      t2.ID = sampleUser.ID ∧ t2.Username = sampleUser.Username ∧
      t2.Discriminator = sampleUser.Discriminator ∧
      t2.Email = sampleUser.Email ∧
      t2.Token = sampleUser.Token ∧ t2.Verified = sampleUser.Verified ∧
      t2.MFAEnabled = sampleUser.MFAEnabled ∧ t2.Bot = sampleUser.Bot ∧
      (sampleUser.Avatar = none →
        t2.Avatar = sampleTarget.Avatar ∧ h2 = sampleHeap) ∧
      (∀ l, sampleUser.Avatar = some l → ∃ l2, t2.Avatar = some l2 ∧
        l2 ≠ l ∧ h2.cells l2 = sampleHeap.cells l ∧
        (∀ m, m < sampleHeap.next → h2.cells m = sampleHeap.cells m)) :=
  ⟨fun l hl => by simp [sampleUser] at hl; simp [sampleHeap, ← hl],
   copyOverTo_transfers sampleUser sampleTarget sampleHeap
     (fun l hl => by simp [sampleUser] at hl; simp [sampleHeap, ← hl])⟩

/-- The keys of the full marshalled `User` value, segment by segment. -/
theorem keys_marshalUserValue (u : User) (h : Heap) :
    (marshalUserValue u h).keys =
      (if u.ID = 0 then [] else ["id"]) ++
      (if u.Username = "" then [] else ["username"]) ++
      (if u.Discriminator = "" then [] else ["discriminator"]) ++
      (if u.Email = "" then [] else ["email"]) ++
      ["avatar"] ++
      (if u.Token = "" then [] else ["token"]) ++
      (if u.Verified = false then [] else ["verified"]) ++
      (if u.MFAEnabled = false then [] else ["mfa_enabled"]) ++
      (if u.Bot = false then [] else ["bot"]) := by
  rw [marshalUserValue, Json.keys]
  simp only [List.map_append, apply_ite (List.map (Prod.fst (β := Json)))]
  simp

/-- Claim C5: for every user with identifier `> 0`, the marshalled output
contains each omit-when-default field (username, discriminator, email, token,
verified, mfa_enabled, bot) exactly when it is non-zero — so a zero-valued
such field is absent — while the `id` key is always present. -/
theorem marshalJSON_of_nonzero_id (u : User) (h : Heap) (hid : 0 < u.ID) :
    "id" ∈ ((u.MarshalJSON h).1).keys ∧
    ("username" ∈ ((u.MarshalJSON h).1).keys ↔ u.Username ≠ "") ∧
    ("discriminator" ∈ ((u.MarshalJSON h).1).keys ↔ u.Discriminator ≠ "") ∧
    ("email" ∈ ((u.MarshalJSON h).1).keys ↔ u.Email ≠ "") ∧
    ("token" ∈ ((u.MarshalJSON h).1).keys ↔ u.Token ≠ "") ∧
    ("verified" ∈ ((u.MarshalJSON h).1).keys ↔ u.Verified = true) ∧
    ("mfa_enabled" ∈ ((u.MarshalJSON h).1).keys ↔ u.MFAEnabled = true) ∧
    ("bot" ∈ ((u.MarshalJSON h).1).keys ↔ u.Bot = true) := by
  have hid2 : u.ID ≠ 0 := Nat.pos_iff_ne_zero.mp hid
  have hne : Snowflake.Empty u.ID = false := by
    simp [Snowflake.Empty, hid2]
  rw [User.MarshalJSON, hne]
  simp only [Bool.false_eq_true, if_false]
  rw [keys_marshalUserValue]
  refine ⟨?_, ?_, ?_, ?_, ?_, ?_, ?_, ?_⟩ <;>
    simp [List.mem_append, hid2]

/-- A user with a positive identifier, a populated username and bot flag, and
every other omit-when-default field at its zero value. -/
def partialSample : User :=
  { ID := 123, Username := "Ann", Discriminator := "", Email := "",
    Avatar := none, Token := "", Verified := false, MFAEnabled := false,
    Bot := true }

/-- Witness for C5 at `partialSample`. -/
theorem marshalJSON_of_nonzero_id_witness :
    0 < partialSample.ID ∧
    ("id" ∈ ((partialSample.MarshalJSON sampleHeap).1).keys ∧
    ("username" ∈ ((partialSample.MarshalJSON sampleHeap).1).keys ↔
      partialSample.Username ≠ "") ∧
    ("discriminator" ∈ ((partialSample.MarshalJSON sampleHeap).1).keys ↔
      partialSample.Discriminator ≠ "") ∧
    ("email" ∈ ((partialSample.MarshalJSON sampleHeap).1).keys ↔
      partialSample.Email ≠ "") ∧
    ("token" ∈ ((partialSample.MarshalJSON sampleHeap).1).keys ↔
      partialSample.Token ≠ "") ∧
    ("verified" ∈ ((partialSample.MarshalJSON sampleHeap).1).keys ↔
      partialSample.Verified = true) ∧
    ("mfa_enabled" ∈ ((partialSample.MarshalJSON sampleHeap).1).keys ↔
      partialSample.MFAEnabled = true) ∧
    ("bot" ∈ ((partialSample.MarshalJSON sampleHeap).1).keys ↔
      partialSample.Bot = true)) :=
  ⟨by decide, marshalJSON_of_nonzero_id partialSample sampleHeap (by decide)⟩

/-- The state after thread 1 (copying a → b) has taken its read lock on a. -/
def bidirMidState : SysState :=
  { lockA := ⟨1, false⟩, lockB := ⟨0, false⟩,
    thread1 := [(.b, .wlock), (.a, .runlock), (.b, .wunlock)],
    thread2 := copyLockTrace .b .a }

/-- The state after both opposite-direction copies have taken their read
locks: each thread now waits for a write lock held for reading by the other. -/
def bidirDeadState : SysState :=
  { lockA := ⟨1, false⟩, lockB := ⟨1, false⟩,
    thread1 := [(.b, .wlock), (.a, .runlock), (.b, .wunlock)],
    thread2 := [(.a, .wlock), (.b, .runlock), (.a, .wunlock)] }

/-- Claim C6 counterexample: from the initial state of two concurrent
opposite-direction `CopyOverTo` runs between the same pair of users, the
schedule in which each thread first takes its read lock reaches a state where
both threads are blocked forever — the source-then-target acquisition order
does not prevent deadlock. -/
theorem bidirectional_copy_deadlock :
    bidirInit.Reaches bidirDeadState ∧ bidirDeadState.Deadlocked := by
  refine ⟨?_, by decide⟩
  exact Relation.ReflTransGen.head
    (show bidirMidState ∈ bidirInit.succs by decide)
    (Relation.ReflTransGen.head
      (show bidirDeadState ∈ bidirMidState.succs by decide)
      Relation.ReflTransGen.refl)

/-- Claim C6 (amended): `CopyOverTo` does acquire a shared (read) lock on the
source and then an exclusive (write) lock on the target — its two
acquisitions, in program order, are exactly `src` read then `tgt` write — but
this order is relative to the copy direction rather than global, so it does
not rule out deadlock: two threads running `CopyOverTo` in opposite
directions between the same pair of users can reach a deadlocked state. -/
theorem copy_lock_order_not_deadlock_free (src tgt : LockId) :
    (copyLockTrace src tgt).filter
        (fun p => p.2 == LockOp.rlock || p.2 == LockOp.wlock) =
      [(src, .rlock), (tgt, .wlock)] ∧
    bidirInit.Reaches bidirDeadState ∧ bidirDeadState.Deadlocked := by
  refine ⟨rfl, ?_, by decide⟩
  exact Relation.ReflTransGen.head
    (show bidirMidState ∈ bidirInit.succs by decide)
    (Relation.ReflTransGen.head
      (show bidirDeadState ∈ bidirMidState.succs by decide)
      Relation.ReflTransGen.refl)

end Disgord

namespace Httd

/-- A `[]byte` slice, as the list of its byte values. -/
abbrev Bytes := List Nat

/-- A decode target (the `v interface` argument of `Unmarshal`): its current
state of type `σ` together with its custom decode capability when the
target's type implements `json.Unmarshaler` (`none` when it does not).
Running a decoder yields the updated state and the returned error. -/
structure DecodeTarget (σ : Type) where
  state : σ
  customUnmarshalJSON : Option (σ → Bytes → σ × Option String)

/-- `func Unmarshal(data []byte, v interface) error` of `json_std.go`: when
the target implements `json.Unmarshaler`, its `UnmarshalJSON` is invoked on
`data` and its result returned; otherwise the generic field-by-field decoder
`encoding/json.Unmarshal` (external to this file, passed as
`genericUnmarshal`) is used. -/
def Unmarshal {σ : Type} (genericUnmarshal : σ → Bytes → σ × Option String)
    (data : Bytes) (v : DecodeTarget σ) : σ × Option String :=
  match v.customUnmarshalJSON with
  | some j => j v.state data
  | none => genericUnmarshal v.state data

/-- Claim C8: for every byte slice and decode target, `Unmarshal` invokes the
target's custom decode capability and returns its result when the target has
one, and falls back to the generic decoder otherwise. -/
theorem unmarshal_dispatch {σ : Type}
    (genericUnmarshal : σ → Bytes → σ × Option String) (data : Bytes)
    (v : DecodeTarget σ) :
    (∀ j, v.customUnmarshalJSON = some j →
      Unmarshal genericUnmarshal data v = j v.state data) ∧
    (v.customUnmarshalJSON = none →
      Unmarshal genericUnmarshal data v =
        genericUnmarshal v.state data) := by
  constructor
  · intro j hj
    rw [Unmarshal, hj]
  · intro hn
    rw [Unmarshal, hn]

/-- Witness for C8 at a concrete custom decoder and a concrete plain
target. -/
theorem unmarshal_dispatch_witness :
    Unmarshal (fun (s : Nat) (_ : Bytes) => (s, some "generic")) [1, 2, 3]
        ⟨5, some (fun s d => (s + d.length, none))⟩ =
      (fun (s : Nat) (d : Bytes) => (s + d.length, none)) 5 [1, 2, 3] ∧
    Unmarshal (fun (s : Nat) (_ : Bytes) => (s, some "generic")) [1, 2, 3]
        ⟨5, none⟩ =
      (fun (s : Nat) (_ : Bytes) => (s, some "generic")) 5 [1, 2, 3] :=
  ⟨(unmarshal_dispatch _ _ _).1 _ rfl, (unmarshal_dispatch _ _ _).2 rfl⟩

end Httd
